import Mathlib

/-!
Verification development for the RS-Conservation-GEE repository.

The repository consists of Google Earth Engine (GEE) JavaScript scripts:
CHIRPS rainfall baselines/anomalies, JRC Global Surface Water (GSW)
occurrence/transition summaries (a generic and a robust variant), Hansen
global forest change, NASADEM elevation statistics, Landsat NDVI anomalies,
and WDPA protected-area extraction.

We shallowly embed the parts of those scripts that the claims are about:

* single-band images are functions from an abstract pixel grid to
  `Option ℚ` (`none` = masked pixel), and image collections are lists of
  images; the EE reducers `sum`, `mean`, `subtract`, `updateMask`, `clip`
  are given their per-pixel semantics (reducers skip masked inputs and
  produce a masked pixel when no input is unmasked);
* the GSW transition-class aggregation (group dictionaries, metadata
  dictionaries, feature construction, filtering and sorting) is embedded
  over explicit list/dictionary values;
* the script-level structure (which remote datasets are loaded, which
  export jobs are queued and where) is embedded as per-script step lists;
* the baseline/anomaly composition expressions are additionally deep
  embedded as a small expression language in order to state the syntactic
  claim that they use only the aggregation primitives.
-/

namespace GEE

/-- Pixels of the abstract raster grid. -/
abbrev Pixel := Nat

/-- A single-band EE image: a per-pixel optional value, `none` meaning the
pixel is masked. -/
abbrev EEImage := Pixel → Option ℚ

/-- `image.updateMask(m)`: keep a pixel only where the mask holds. -/
def updateMaskB (img : EEImage) (m : Pixel → Bool) : EEImage :=
  fun p => if m p then img p else none

/-- `image.mask()`: true exactly where the image is unmasked. -/
def imageMask (img : EEImage) : Pixel → Bool :=
  fun p => (img p).isSome

/-- `image.clip(geometry)`: mask everything outside the geometry. -/
def clipTo (aoi : Pixel → Bool) (img : EEImage) : EEImage :=
  fun p => if aoi p then img p else none

/-- `a.subtract(b)`: per-pixel difference, masked where either input is
masked. -/
def imgSub (a b : EEImage) : EEImage :=
  fun p =>
    match a p, b p with
    | some x, some y => some (x - y)
    | _, _ => none

/-- `ImageCollection.sum()`: per-pixel sum of the unmasked inputs, masked
where no input is unmasked. -/
def icSum (imgs : List EEImage) : EEImage :=
  fun p =>
    let vs := imgs.filterMap (fun img => img p)
    if vs.isEmpty then none else some vs.sum

/-- `ImageCollection.mean()`: per-pixel mean of the unmasked inputs, masked
where no input is unmasked. -/
def icMean (imgs : List EEImage) : EEImage :=
  fun p =>
    let vs := imgs.filterMap (fun img => img p)
    if vs.isEmpty then none else some (vs.sum / vs.length)

/-- `ee.List.sequence(a, b)`: the integers from `a` to `b` inclusive. -/
def seqInts (a b : Int) : List Int :=
  (List.range (b - a + 1).toNat).map (fun i => a + i)

end GEE

namespace Chirps

open GEE

/-- One daily CHIRPS precipitation image together with the calendar data the
script filters on. -/
structure DailyImage where
  date : Int
  year : Int
  doy : Int
  val : EEImage

/-- The user settings of the CHIRPS script that the composition reads. -/
structure Config where
  studyStart : Int
  studyEnd : Int
  baselineStartYear : Int
  baselineEndYear : Int
  doyStart : Int
  doyEnd : Int
  aoi : Pixel → Bool

/-- `ee.Filter.date(a, b)`: start inclusive, end exclusive. -/
def filterDate (a b : Int) (coll : List DailyImage) : List DailyImage :=
  coll.filter (fun im => a ≤ im.date && im.date < b)

/-- `ee.Filter.dayOfYear(a, b)`: both ends inclusive. -/
def filterDayOfYear (a b : Int) (coll : List DailyImage) : List DailyImage :=
  coll.filter (fun im => a ≤ im.doy && im.doy ≤ b)

/-- `ee.Filter.calendarRange(y, y, 'year')`. -/
def filterCalendarYear (y : Int) (coll : List DailyImage) : List DailyImage :=
  coll.filter (fun im => im.year == y)

/-- `chirps_study`: total rainfall over the study period, clipped to the
AOI (source: study-period sum at part_000 lines 118-121). -/
def chirps_study (cfg : Config) (coll : List DailyImage) : EEImage :=
  clipTo cfg.aoi (icSum ((filterDate cfg.studyStart cfg.studyEnd coll).map DailyImage.val))

/-- `chirps_mam`: the collection restricted to the day-of-year window
(part_000 line 129). -/
def chirps_mam (cfg : Config) (coll : List DailyImage) : List DailyImage :=
  filterDayOfYear cfg.doyStart cfg.doyEnd coll

/-- `chirps_baseline`: mean over the baseline years of each year's windowed
rainfall total, clipped to the AOI (part_000 lines 130-140). -/
def chirps_baseline (cfg : Config) (coll : List DailyImage) : EEImage :=
  icMean ((seqInts cfg.baselineStartYear cfg.baselineEndYear).map
    (fun y =>
      clipTo cfg.aoi (icSum ((filterCalendarYear y (chirps_mam cfg coll)).map DailyImage.val))))

/-- `baseline_masked`: the baseline masked with the study image's mask
(part_000 line 148). -/
def baseline_masked (cfg : Config) (coll : List DailyImage) : EEImage :=
  updateMaskB (chirps_baseline cfg coll) (imageMask (chirps_study cfg coll))

/-- `rainfall_anomaly`: study total minus masked baseline, clipped to the
AOI (part_000 lines 150-152). -/
def rainfall_anomaly (cfg : Config) (coll : List DailyImage) : EEImage :=
  clipTo cfg.aoi (imgSub (chirps_study cfg coll) (baseline_masked cfg coll))

/-- Stated from the claim's words: the per-year sum of the daily
precipitation images restricted to the day-of-year window
`[doy_start, doy_end]` and clipped to the AOI, for year `y`. -/
def yearTotalSpec (cfg : Config) (coll : List DailyImage) (y : Int) : EEImage :=
  clipTo cfg.aoi (icSum
    ((coll.filter (fun im =>
      (cfg.doyStart ≤ im.doy && im.doy ≤ cfg.doyEnd) && im.year == y)).map DailyImage.val))

/-- Stated from the claim's words: the per-pixel mean over every year from
`baseline_start_year` to `baseline_end_year` inclusive of the per-year
windowed totals. -/
def baselineSpec (cfg : Config) (coll : List DailyImage) : EEImage :=
  icMean ((seqInts cfg.baselineStartYear cfg.baselineEndYear).map (yearTotalSpec cfg coll))

end Chirps

namespace GswGen

/-- The GSW image metadata the generic script reads: the parallel property
lists `transition_class_values`, `transition_class_names`,
`transition_class_palette`. -/
structure GswMeta where
  transition_class_values : List Int
  transition_class_names : List String
  transition_class_palette : List String

/-- One group dictionary of the grouped pixel-area sum reduction over the
`transition` band: the class value and the summed pixel area (m²) of that
class inside the AOI. -/
structure GroupStats where
  transition_class_value : Int
  sum : ℚ
deriving DecidableEq

/-- The summary feature the generic script builds per transition class. -/
structure TransitionFeature where
  transition_class_number : Int
  transition_class_name : Option String
  transition_class_palette : Option String
  area_m2 : ℚ
deriving DecidableEq

/-- `numToString`: `ee.Number(num).format()` on the integer class values. -/
def numToString (n : Int) : String := toString n

/-- `ee.Dictionary.fromLists(keys, values)` as an association list. -/
def dictFromLists (ks vs : List String) : List (String × String) :=
  ks.zip vs

/-- `ee.Dictionary.get(key)`: the value stored under the key, if any. -/
def dictGet (d : List (String × String)) (k : String) : Option String :=
  (d.find? (fun kv => kv.1 == k)).map (fun kv => kv.2)

/-- `lookup_names` (generic script lines 163-166): stringified class values
mapped to the class names from the dataset metadata. -/
def lookup_names (m : GswMeta) : List (String × String) :=
  dictFromLists (m.transition_class_values.map numToString) m.transition_class_names

/-- `lookup_palette` (generic script lines 168-171). -/
def lookup_palette (m : GswMeta) : List (String × String) :=
  dictFromLists (m.transition_class_values.map numToString) m.transition_class_palette

/-- `createFeature` (generic script lines 124-135). -/
def createFeature (m : GswMeta) (g : GroupStats) : TransitionFeature :=
  { transition_class_number := g.transition_class_value
  , transition_class_name := dictGet (lookup_names m) (numToString g.transition_class_value)
  , transition_class_palette := dictGet (lookup_palette m) (numToString g.transition_class_value)
  , area_m2 := g.sum }

/-- `transition_fc` (generic script lines 202-204): one feature per group of
the grouped reduction output. -/
def transition_fc (m : GswMeta) (groups : List GroupStats) : List TransitionFeature :=
  groups.map (createFeature m)

/-- Default feature used only to state indexed lookups totally. -/
def blankFeature : TransitionFeature :=
  { transition_class_number := 0
  , transition_class_name := none
  , transition_class_palette := none
  , area_m2 := 0 }

/-- Default group used only to state indexed lookups totally. -/
def blankGroup : GroupStats :=
  { transition_class_value := 0, sum := 0 }

end GswGen

namespace GswRob

/-- Hard-coded class-name table of the robust GSW variant (scripts file
lines 49-54). -/
def class_names : List String :=
  [ "No Change", "Permanent Water", "New Permanent", "Lost Permanent"
  , "Seasonal Water", "New Seasonal", "Lost Seasonal"
  , "Seasonal to Permanent", "Permanent to Seasonal"
  , "Ephemeral Permanent", "Ephemeral Seasonal" ]

/-- Hard-coded class-color table of the robust GSW variant (scripts file
lines 56-59). -/
def class_colors : List String :=
  [ "#ffffff", "#0000ff", "#22b14c", "#d1102d", "#99d9ea"
  , "#b5e61d", "#e6a1aa", "#ff7f27", "#ffc90e", "#7f7f7f", "#c3c3c3" ]

/-- A group dictionary as the robust `createFeature` receives it: the class
value, and the `sum` entry which may be absent (`none`). -/
structure GroupDict where
  transition_class_value : Int
  sum : Option ℚ
deriving DecidableEq

/-- The summary feature of the robust variant, with areas in km². -/
structure RobustFeature where
  transition_class_number : Int
  transition_class_name : String
  transition_class_palette : String
  area_km2 : ℚ
deriving DecidableEq

/-- `createFeature` of the robust variant (scripts file lines 202-227): the
class number is kept as an integer, names and colors come from the
hard-coded tables with an `Unknown`/`#999999` fallback for class values
outside 0..10, and a missing `sum` defaults to 0; the area is converted
from m² to km². -/
def createFeature (d : GroupDict) : RobustFeature :=
  let n := d.transition_class_value
  { transition_class_number := n
  , transition_class_name :=
      if 0 ≤ n ∧ n ≤ 10 then class_names.getD n.toNat "Unknown" else "Unknown"
  , transition_class_palette :=
      if 0 ≤ n ∧ n ≤ 10 then class_colors.getD n.toNat "#999999" else "#999999"
  , area_km2 := d.sum.getD 0 / 1000000 }

/-- Insertion step of `sort('area_km2', false)`: descending by area. -/
def insertByAreaDesc (f : RobustFeature) : List RobustFeature → List RobustFeature
  | [] => [f]
  | g :: gs => if g.area_km2 ≤ f.area_km2 then f :: g :: gs else g :: insertByAreaDesc f gs

/-- `sort('area_km2', false)`: sort features by area, descending. -/
def sortByAreaDesc : List RobustFeature → List RobustFeature
  | [] => []
  | f :: fs => insertByAreaDesc f (sortByAreaDesc fs)

/-- `transition_fc` of the robust variant (scripts file lines 258-260):
features from the groups, restricted to strictly positive area and sorted
by area descending.  The groups of the actual grouped reduction always
carry a `sum`, so the robust pipeline feeds `createFeature` dictionaries
with the `sum` entry present. -/
def transition_fc (groups : List GswGen.GroupStats) : List RobustFeature :=
  sortByAreaDesc
    ((groups.map (fun g =>
        createFeature { transition_class_value := g.transition_class_value, sum := some g.sum })).filter
      (fun f => 0 < f.area_km2))

end GswRob

namespace Scripts

/-- Destination of an export request. -/
inductive Dest where
  | drive
  | cloudStorage
  | asset
deriving DecidableEq

/-- The script-level actions the claims are about, in source order:
loading the area-of-interest boundary source, loading a remote dataset,
deriving a summary layer, and queueing an export job. -/
inductive Step where
  | loadBoundary (assetId : String)
  | loadDataset (assetId : String)
  | deriveLayer (layerName : String)
  | exportImage (dest : Dest) (desc : String)
  | exportTable (dest : Dest) (desc : String)
deriving DecidableEq

abbrev Script := List Step

/-- The generic GSW script (src/gsw_occurrence_change_generic.js, first
document). -/
def gswGenericScript : Script :=
  [ .loadBoundary "USDOS/LSIB_SIMPLE/2017"
  , .loadDataset "JRC/GSW1_0/GlobalSurfaceWater"
  , .deriveLayer "water_mask"
  , .deriveLayer "transition_fc"
  , .deriveLayer "occurrence_aoi"
  , .deriveLayer "change_aoi"
  , .deriveLayer "transition_aoi"
  , .deriveLayer "water_mask_aoi"
  , .exportTable .drive "Transition_Summary"
  , .exportImage .drive "Water_Mask_gt90"
  , .exportImage .drive "Water_Occurrence"
  , .exportImage .drive "Change_Intensity"
  , .exportImage .drive "Transition_Classes" ]

/-- The WDPA protected-areas script (second document of
src/gsw_occurrence_change_generic.js). -/
def wdpaScript : Script :=
  [ .loadBoundary "USDOS/LSIB_SIMPLE/2017"
  , .loadDataset "WCMC/WDPA/current/polygons"
  , .loadDataset "WCMC/WDPA/current/points"
  , .deriveLayer "PA_polygons"
  , .deriveLayer "PA_points"
  , .deriveLayer "PA_raster_binary"
  , .deriveLayer "PA_raster_area"
  , .deriveLayer "summary_table"
  , .exportTable .drive "Polygons"
  , .exportTable .drive "Points"
  , .exportImage .drive "Raster_Binary"
  , .exportImage .drive "Raster_Area"
  , .exportTable .drive "Summary_Stats" ]

/-- The CHIRPS rainfall script (src/unnamed/part_000). -/
def chirpsScript : Script :=
  [ .loadBoundary "FAO/GAUL/2015/level0"
  , .loadBoundary "FAO/GAUL/2015/level1"
  , .loadBoundary "FAO/GAUL/2015/level2"
  , .loadDataset "UCSB-CHG/CHIRPS/DAILY"
  , .deriveLayer "chirps_study"
  , .deriveLayer "chirps_baseline"
  , .deriveLayer "rainfall_anomaly"
  , .deriveLayer "admin_stats"
  , .exportImage .drive "StudyPeriod"
  , .exportImage .drive "Baseline"
  , .exportImage .drive "Anomaly"
  , .exportTable .drive "Admin_Stats"
  , .exportTable .drive "Admin_Boundaries" ]

/-- The Hansen global forest change script (src/unnamed/part_001). -/
def gfcScript : Script :=
  [ .loadBoundary "USDOS/LSIB_SIMPLE/2017"
  , .loadDataset "UMD/hansen/global_forest_change_2024_v1_12"
  , .deriveLayer "treecover2000_aoi"
  , .deriveLayer "loss_aoi"
  , .deriveLayer "lossyear_aoi"
  , .deriveLayer "gain_aoi"
  , .deriveLayer "forest_2000_area"
  , .deriveLayer "loss_by_year"
  , .exportImage .drive "TreeCover2000"
  , .exportImage .drive "Loss_Binary"
  , .exportImage .drive "LossYear"
  , .exportImage .drive "Gain_Binary"
  , .exportImage .drive "Complete" ]

/-- The Landsat NDVI anomaly script (src/unnamed/part_002): it loads both
the Landsat 7 collection and the ESA WorldCover land-cover product. -/
def ndviScript : Script :=
  [ .loadBoundary "USDOS/LSIB_SIMPLE/2017"
  , .loadDataset "LANDSAT/LE07/C02/T1_L2"
  , .loadDataset "ESA/WorldCover/v200"
  , .deriveLayer "withNDVI"
  , .deriveLayer "monthlyNDVI"
  , .deriveLayer "meanMonthlyNDVI"
  , .deriveLayer "monthlyNDVIAnomalies"
  , .deriveLayer "baseline"
  , .deriveLayer "study_meanNDVI"
  , .deriveLayer "meanAnomaly"
  , .exportTable .drive "Monthly_Anomalies"
  , .exportImage .drive "Mean_Anomaly"
  , .exportImage .drive "Baseline_NDVI"
  , .exportImage .drive "Study_NDVI" ]

/-- The NASADEM elevation statistics script
(src/dem_elevation_stats_generic.js). -/
def demScript : Script :=
  [ .loadBoundary "USDOS/LSIB_SIMPLE/2017"
  , .loadDataset "NASA/NASADEM_HGT/001"
  , .deriveLayer "dem_AOI"
  , .deriveLayer "dem_country"
  , .deriveLayer "AOI_stats"
  , .deriveLayer "AOI_percentiles"
  , .exportImage .drive "DEM_Elevation_AOI"
  , .exportImage .drive "DEM_Elevation_Country"
  , .exportTable .drive "AOI stats elevation"
  , .exportTable .drive "AOI percentiles elevation" ]

/-- The robust GSW variant (src/scripts/gsw_occurrence_change_generic.js). -/
def gswRobustScript : Script :=
  [ .loadBoundary "USDOS/LSIB_SIMPLE/2017"
  , .loadDataset "JRC/GSW1_4/GlobalSurfaceWater"
  , .deriveLayer "water_mask"
  , .deriveLayer "hist_fc"
  , .deriveLayer "transition_fc"
  , .deriveLayer "occurrence_aoi"
  , .deriveLayer "change_aoi"
  , .deriveLayer "transition_aoi"
  , .deriveLayer "water_mask_aoi"
  , .exportTable .drive "Transition_Summary_km2"
  , .exportImage .drive "Water_Mask_gt90"
  , .exportImage .drive "Water_Occurrence"
  , .exportImage .drive "Change_Intensity"
  , .exportImage .drive "Transition_Classes" ]

/-- All scripts found in the repository sources. -/
def repoScripts : List Script :=
  [ gswGenericScript, wdpaScript, chirpsScript, gfcScript
  , ndviScript, demScript, gswRobustScript ]

def isLoadDataset : Step → Bool
  | .loadDataset _ => true
  | _ => false

def isDeriveLayer : Step → Bool
  | .deriveLayer _ => true
  | _ => false

def isExportStep : Step → Bool
  | .exportImage _ _ => true
  | .exportTable _ _ => true
  | _ => false

/-- Number of remote datasets a script loads beyond the boundary source. -/
def datasetLoadCount (s : Script) : Nat :=
  (s.filter isLoadDataset).length

/-- Number of export jobs a script queues. -/
def exportCount (s : Script) : Nat :=
  (s.filter isExportStep).length

/-- Exports to Google Drive only. -/
def exportsOnlyToDrive (s : Script) : Bool :=
  s.all (fun st =>
    match st with
    | .exportImage d _ => d == Dest.drive
    | .exportTable d _ => d == Dest.drive
    | _ => true)

/-- All dataset loads happen before the first summary layer is derived. -/
def loadsPrecedeDerivation (s : Script) : Bool :=
  (s.dropWhile (fun st => !(isDeriveLayer st))).all (fun st => !(isLoadDataset st))

end Scripts

namespace ChirpsRun

/-- User settings of the CHIRPS script that drive the AOI construction. -/
structure Settings where
  use_custom_aoi : Bool
  admin_level : Int
deriving DecidableEq

/-- The AOI the script ends up with. -/
inductive AoiChoice where
  | custom
  | adminBoundaries (level : Int)
deriving DecidableEq

/-- The AOI construction of the CHIRPS script (part_000 lines 53-89): a
custom AOI is taken as is; otherwise admin level 0, 1 or 2 selects the GAUL
collection, and any other level throws. -/
def buildAOI (cfg : Settings) : Except String AoiChoice :=
  if cfg.use_custom_aoi then
    .ok .custom
  else if cfg.admin_level = 0 then
    .ok (.adminBoundaries 0)
  else if cfg.admin_level = 1 then
    .ok (.adminBoundaries 1)
  else if cfg.admin_level = 2 then
    .ok (.adminBoundaries 2)
  else
    .error "admin_level must be 0, 1, or 2"

/-- What a completed run of the CHIRPS script has done: the datasets it
loaded and the exports it queued. -/
structure Outcome where
  aoi : AoiChoice
  loadedDatasets : List String
  queuedExports : List String
deriving DecidableEq

/-- The CHIRPS script run: the AOI is constructed first; only when that
succeeds is the CHIRPS dataset loaded and are the export jobs queued
(part_000: the throw at line 83 aborts the script before line 110 loads
CHIRPS and before lines 204-245 queue exports). -/
def runScript (cfg : Settings) : Except String Outcome := do
  let aoi ← buildAOI cfg
  pure
    { aoi := aoi
    , loadedDatasets := ["UCSB-CHG/CHIRPS/DAILY"]
    , queuedExports :=
        ["StudyPeriod", "Baseline", "Anomaly", "Admin_Stats", "Admin_Boundaries"] }

end ChirpsRun

namespace Composition

/-- Deep embedding of the baseline/anomaly composition expressions: the
request-graph nodes the two scripts build.  `condIf` is
`ee.Algorithms.If` and `bandCountPos` is the `image.bandNames().size().gt(0)`
guard; everything else is a filter, an aggregation primitive
(`sum`, `mean`, `subtract`, `updateMask`) or a masking/selection helper. -/
inductive GExpr where
  | source (id : String)
  | filterDate (a b : String) (e : GExpr)
  | filterDoy (a b : Int) (e : GExpr)
  | filterYear (y : Int) (e : GExpr)
  | filterMonth (m : Int) (e : GExpr)
  | selectBand (b : String) (e : GExpr)
  | icSum (e : GExpr)
  | icMean (e : GExpr)
  | sub (a b : GExpr)
  | updateMask (a m : GExpr)
  | maskOf (e : GExpr)
  | clip (e : GExpr)
  | renameBand (n : String) (e : GExpr)
  | firstOf (e : GExpr)
  | collNil
  | collCons (img rest : GExpr)
  | condIf (c t f : GExpr)
  | bandCountPos (e : GExpr)
deriving DecidableEq

/-- `ee.ImageCollection.fromImages` over an explicit list of images. -/
def collOf : List GExpr → GExpr
  | [] => .collNil
  | e :: es => .collCons e (collOf es)

/-- No conditional (`ee.Algorithms.If`) and no band-count guard occurs
anywhere in the expression. -/
def primitivesOnly : GExpr → Bool
  | .source _ => true
  | .filterDate _ _ e => primitivesOnly e
  | .filterDoy _ _ e => primitivesOnly e
  | .filterYear _ e => primitivesOnly e
  | .filterMonth _ e => primitivesOnly e
  | .selectBand _ e => primitivesOnly e
  | .icSum e => primitivesOnly e
  | .icMean e => primitivesOnly e
  | .sub a b => primitivesOnly a && primitivesOnly b
  | .updateMask a m => primitivesOnly a && primitivesOnly m
  | .maskOf e => primitivesOnly e
  | .clip e => primitivesOnly e
  | .renameBand _ e => primitivesOnly e
  | .firstOf e => primitivesOnly e
  | .collNil => true
  | .collCons img rest => primitivesOnly img && primitivesOnly rest
  | .condIf _ _ _ => false
  | .bandCountPos _ => false

/-- The only non-primitive constructs in the expression are conditionals
and their band-count guards: everything underneath is again of this shape. -/
def primitivesOrGuard : GExpr → Bool
  | .source _ => true
  | .filterDate _ _ e => primitivesOrGuard e
  | .filterDoy _ _ e => primitivesOrGuard e
  | .filterYear _ e => primitivesOrGuard e
  | .filterMonth _ e => primitivesOrGuard e
  | .selectBand _ e => primitivesOrGuard e
  | .icSum e => primitivesOrGuard e
  | .icMean e => primitivesOrGuard e
  | .sub a b => primitivesOrGuard a && primitivesOrGuard b
  | .updateMask a m => primitivesOrGuard a && primitivesOrGuard m
  | .maskOf e => primitivesOrGuard e
  | .clip e => primitivesOrGuard e
  | .renameBand _ e => primitivesOrGuard e
  | .firstOf e => primitivesOrGuard e
  | .collNil => true
  | .collCons img rest => primitivesOrGuard img && primitivesOrGuard rest
  | .condIf c t f => primitivesOrGuard c && primitivesOrGuard t && primitivesOrGuard f
  | .bandCountPos e => primitivesOrGuard e

/-- The CHIRPS daily precipitation collection (already band-selected and
bounds-filtered). -/
def chirpsDaily : GExpr := .source "UCSB-CHG/CHIRPS/DAILY"

/-- `chirps_study` (part_000 lines 118-121). -/
def chirpsStudyExpr : GExpr :=
  .clip (.icSum (.filterDate "2024-01-01" "2024-12-31" chirpsDaily))

/-- `chirps_mam` (part_000 line 129). -/
def chirpsMamExpr : GExpr := .filterDoy 1 365 chirpsDaily

/-- One year's windowed total of `chirps_baseline` (part_000 lines 133-139). -/
def yearlySumExpr (y : Int) : GExpr :=
  .clip (.icSum (.filterYear y chirpsMamExpr))

/-- `chirps_baseline` (part_000 lines 132-140). -/
def chirpsBaselineExpr : GExpr :=
  .icMean (collOf ((GEE.seqInts 2000 2015).map yearlySumExpr))

/-- `baseline_masked` (part_000 line 148). -/
def baselineMaskedExpr : GExpr :=
  .updateMask chirpsBaselineExpr (.maskOf chirpsStudyExpr)

/-- `rainfall_anomaly` (part_000 lines 150-152). -/
def rainfallAnomalyExpr : GExpr :=
  .clip (.sub chirpsStudyExpr baselineMaskedExpr)

/-- The preprocessed Landsat 7 collection `withNDVI` (cloud-masked, scaled,
NDVI band added: preprocessing, not part of the composition). -/
def withNdviExpr : GExpr := .source "withNDVI"

/-- One month's mean NDVI image of `monthlyNDVI` (part_002 lines 198-214). -/
def monthlyNdviExpr (y m : Int) : GExpr :=
  .icMean (.filterMonth m (.filterYear y (.selectBand "NDVI" withNdviExpr)))

/-- The year/month grid of the monthly NDVI collection (2000-2020, months
1-12). -/
def yearMonthPairs : List (Int × Int) :=
  (GEE.seqInts 2000 2020).flatMap (fun y => (GEE.seqInts 1 12).map (fun m => (y, m)))

/-- `monthlyNDVI` (part_002 lines 198-214). -/
def monthlyNdviCollExpr : GExpr :=
  collOf (yearMonthPairs.map (fun p => monthlyNdviExpr p.1 p.2))

/-- One month of `meanMonthlyNDVI` (part_002 lines 228-236): the named
`monthlyNDVI` collection, date-filtered to the baseline and averaged. -/
def meanMonthlyExpr (m : Int) : GExpr :=
  .icMean (.filterMonth m (.filterDate "2000-01-01" "2015-02-28" (.source "monthlyNDVI")))

/-- `meanMonthlyNDVI` (part_002 lines 228-236). -/
def meanMonthlyCollExpr : GExpr :=
  collOf ((GEE.seqInts 1 12).map meanMonthlyExpr)

/-- `computeAnomaly` applied to the monthly image of year `y`, month `m`
(part_002 lines 241-266): the subtraction is wrapped in two
`ee.Algorithms.If` guards on the band counts of the image and of the
reference image. -/
def computeAnomalyExpr (y m : Int) : GExpr :=
  let img := monthlyNdviExpr y m
  let ref := .firstOf (.filterMonth m (.source "meanMonthlyNDVI"))
  .condIf (.bandCountPos img)
    (.condIf (.bandCountPos ref) (.sub img ref) img)
    img

/-- `monthlyNDVIAnomalies` (part_002 line 269): `computeAnomaly` mapped
over the monthly collection. -/
def monthlyAnomaliesCollExpr : GExpr :=
  collOf (yearMonthPairs.map (fun p => computeAnomalyExpr p.1 p.2))

/-- `baseline` of the NDVI script (part_002 lines 338-341). -/
def ndviBaselineExpr : GExpr :=
  .icMean (.filterDoy 1 365 (.selectBand "NDVI"
    (.filterDate "2000-01-01" "2015-02-28" withNdviExpr)))

/-- `study_meanNDVI` (part_002 lines 344-348). -/
def studyMeanNdviExpr : GExpr :=
  .clip (.icMean (.selectBand "NDVI" (.filterDate "2015-03-01" "2018-07-31" withNdviExpr)))

/-- `meanAnomaly` (part_002 line 351). -/
def meanAnomalyExpr : GExpr :=
  .renameBand "NDVI_mean_anomaly" (.sub studyMeanNdviExpr ndviBaselineExpr)

/-- The baseline/anomaly composition expressions of the CHIRPS script. -/
def chirpsCompositions : List GExpr :=
  [chirpsStudyExpr, chirpsBaselineExpr, baselineMaskedExpr, rainfallAnomalyExpr]

/-- The baseline/anomaly composition expressions of the Landsat NDVI
script. -/
def ndviCompositions : List GExpr :=
  [ monthlyNdviCollExpr, meanMonthlyCollExpr, monthlyAnomaliesCollExpr
  , ndviBaselineExpr, studyMeanNdviExpr, meanAnomalyExpr ]

/-- All baseline/anomaly compositions in the repository. -/
def allCompositions : List GExpr :=
  chirpsCompositions ++ ndviCompositions

end Composition

namespace Slug

/-- JavaScript regex whitespace class (the characters the scripts can
encounter). -/
def isJsSpace (c : Char) : Bool :=
  c = ' ' || c = '\t' || c = '\n' || c = '\r' || c = '\x0b' || c = '\x0c'

/-- JavaScript regex word-character class: ASCII letters, digits and the
underscore. -/
def isWordChar (c : Char) : Bool :=
  (('a' ≤ c && c ≤ 'z') || ('A' ≤ c && c ≤ 'Z') || ('0' ≤ c && c ≤ '9')) || c = '_'

/-- `String.prototype.trim()`: drop leading and trailing whitespace. -/
def trimWs (l : List Char) : List Char :=
  ((l.dropWhile isJsSpace).reverse.dropWhile isJsSpace).reverse

/-- Worker of the whitespace collapse: `prevWs` records whether the
previous character belonged to a whitespace run already replaced. -/
def collapseGo : Bool → List Char → List Char
  | _, [] => []
  | prevWs, c :: rest =>
    if isJsSpace c then
      if prevWs then collapseGo true rest else '_' :: collapseGo true rest
    else
      c :: collapseGo false rest

/-- `.replace(/\s+/g, '_')`: each maximal whitespace run becomes one
underscore. -/
def collapseWs (l : List Char) : List Char :=
  collapseGo false l

/-- `.replace(/[^\w\-]/g, '')`: delete every character that is neither a
word character nor a hyphen. -/
def keepWordChars (l : List Char) : List Char :=
  l.filter (fun c => isWordChar c || c = '-')

/-- `slugifyName` (robust GSW script lines 21-26). -/
def slugifyName (s : String) : String :=
  ⟨keepWordChars (collapseWs (trimWs s.data))⟩

/-- A character that is safe in an export task name: letter, digit,
underscore or hyphen. -/
def isSlugSafe (c : Char) : Bool :=
  isWordChar c || c = '-'

end Slug

namespace Wit

/-- A small instance of the GSW metadata (first three JRC classes), used to
instantiate universally quantified theorems. -/
def gswMeta : GswGen.GswMeta :=
  { transition_class_values := [0, 1, 2]
  , transition_class_names := ["No Data", "Permanent Water", "New Permanent"]
  , transition_class_palette := ["000000", "0000FF", "00FFFF"] }

/-- A one-group reduction output. -/
def gswGroups : List GswGen.GroupStats :=
  [{ transition_class_value := 1, sum := 12345 }]

/-- A two-group reduction output with distinct class values. -/
def twoGroups : List GswGen.GroupStats :=
  [ { transition_class_value := 1, sum := 3000000 }
  , { transition_class_value := 4, sum := 1000000 } ]

/-- A CHIRPS configuration whose AOI is everything. -/
def chirpsCfg : Chirps.Config :=
  { studyStart := 0
  , studyEnd := 10
  , baselineStartYear := 2000
  , baselineEndYear := 2001
  , doyStart := 1
  , doyEnd := 365
  , aoi := fun _ => true }

end Wit

section HelperLemmas

/-- `find?` returns the unique element satisfying the predicate, whatever
the order of the list. -/
theorem find?_eq_some_of_unique {α : Type} {l : List α} {p : α → Bool} {a : α}
    (ha : a ∈ l) (hpa : p a = true) (hu : ∀ b ∈ l, p b = true → b = a) :
    l.find? p = some a := by
  induction l with
  | nil => cases ha
  | cons x xs ih =>
    by_cases hx : p x = true
    · have hxa : x = a := hu x (List.mem_cons_self x xs) hx
      simp [List.find?, hx, hxa, hpa]
    · have hxf : p x = false := by simpa using hx
      have hax : a ∈ xs := by
        rcases List.mem_cons.mp ha with h | h
        · exact absurd (h ▸ hpa) hx
        · exact h
      have hstep : List.find? p (x :: xs) = List.find? p xs := by
        simp [List.find?, hxf]
      rw [hstep]
      exact ih hax (fun b hb hpb => hu b (List.mem_cons_of_mem x hb) hpb)

theorem GswRob.mem_insertByAreaDesc {a f : GswRob.RobustFeature}
    {l : List GswRob.RobustFeature} :
    a ∈ GswRob.insertByAreaDesc f l ↔ a = f ∨ a ∈ l := by
  induction l with
  | nil => simp [GswRob.insertByAreaDesc]
  | cons g gs ih =>
    by_cases h : g.area_km2 ≤ f.area_km2
    · simp [GswRob.insertByAreaDesc, h]
    · simp only [GswRob.insertByAreaDesc, if_neg h, List.mem_cons, ih]
      tauto

theorem GswRob.mem_sortByAreaDesc {a : GswRob.RobustFeature}
    {l : List GswRob.RobustFeature} :
    a ∈ GswRob.sortByAreaDesc l ↔ a ∈ l := by
  induction l with
  | nil => simp [GswRob.sortByAreaDesc]
  | cons f fs ih =>
    simp [GswRob.sortByAreaDesc, GswRob.mem_insertByAreaDesc, ih]

theorem GswRob.pairwise_insertByAreaDesc {f : GswRob.RobustFeature}
    {l : List GswRob.RobustFeature}
    (h : l.Pairwise (fun a b => b.area_km2 ≤ a.area_km2)) :
    (GswRob.insertByAreaDesc f l).Pairwise (fun a b => b.area_km2 ≤ a.area_km2) := by
  induction l with
  | nil => simp [GswRob.insertByAreaDesc]
  | cons g gs ih =>
    rcases List.pairwise_cons.mp h with ⟨hg, hgs⟩
    by_cases hle : g.area_km2 ≤ f.area_km2
    · rw [GswRob.insertByAreaDesc, if_pos hle]
      refine List.pairwise_cons.mpr ⟨?_, h⟩
      intro x hx
      rcases List.mem_cons.mp hx with rfl | hx
      · exact hle
      · exact le_trans (hg x hx) hle
    · rw [GswRob.insertByAreaDesc, if_neg hle]
      refine List.pairwise_cons.mpr ⟨?_, ih hgs⟩
      intro x hx
      rcases GswRob.mem_insertByAreaDesc.mp hx with rfl | hx
      · exact le_of_lt (lt_of_not_le hle)
      · exact hg x hx

theorem GswRob.pairwise_sortByAreaDesc (l : List GswRob.RobustFeature) :
    (GswRob.sortByAreaDesc l).Pairwise (fun a b => b.area_km2 ≤ a.area_km2) := by
  induction l with
  | nil => simp [GswRob.sortByAreaDesc]
  | cons f fs ih => exact GswRob.pairwise_insertByAreaDesc ih

end HelperLemmas

/-- C2: in the CHIRPS rainfall script, the baseline image `chirps_baseline`
equals, at every pixel, the mean over every year from `baseline_start_year`
to `baseline_end_year` inclusive of the per-year sum of the daily
precipitation images restricted to the day-of-year window
`[doy_start, doy_end]` and clipped to the AOI. -/
theorem chirps_baseline_is_per_doy_multi_year_mean
    (cfg : Chirps.Config) (coll : List Chirps.DailyImage) (p : GEE.Pixel) :
    Chirps.chirps_baseline cfg coll p = Chirps.baselineSpec cfg coll p := by
  have hfun : (fun y => GEE.clipTo cfg.aoi (GEE.icSum
        ((Chirps.filterCalendarYear y (Chirps.chirps_mam cfg coll)).map Chirps.DailyImage.val)))
      = Chirps.yearTotalSpec cfg coll := by
    funext y
    rw [Chirps.yearTotalSpec, Chirps.filterCalendarYear, Chirps.chirps_mam,
      Chirps.filterDayOfYear, List.filter_filter]
    rw [List.filter_congr (fun a _ => Bool.and_comm _ _)]
  rw [Chirps.chirps_baseline, Chirps.baselineSpec, hfun]

/-- C3: the anomaly layer `rainfall_anomaly` equals, at every pixel, the
study-period total minus the baseline masked with the study image's mask,
and it is masked wherever the study image is masked. -/
theorem rainfall_anomaly_is_masked_difference
    (cfg : Chirps.Config) (coll : List Chirps.DailyImage) (p : GEE.Pixel) :
    Chirps.rainfall_anomaly cfg coll p
        = GEE.imgSub (Chirps.chirps_study cfg coll) (Chirps.baseline_masked cfg coll) p
      ∧ (Chirps.chirps_study cfg coll p = none → Chirps.rainfall_anomaly cfg coll p = none) := by
  constructor
  · by_cases h : cfg.aoi p
    · simp [Chirps.rainfall_anomaly, GEE.clipTo, h]
    · have hstudy : Chirps.chirps_study cfg coll p = none := by
        simp [Chirps.chirps_study, GEE.clipTo, h]
      simp [Chirps.rainfall_anomaly, GEE.clipTo, GEE.imgSub, h, hstudy]
  · intro h
    by_cases haoi : cfg.aoi p <;>
      simp [Chirps.rainfall_anomaly, GEE.clipTo, GEE.imgSub, h, haoi]

/-- Witness for C3: with an empty collection the study image is masked at
pixel 0, and the anomaly is masked there too. -/
theorem rainfall_anomaly_is_masked_difference_witness :
    Chirps.rainfall_anomaly Wit.chirpsCfg [] 0 = none :=
  (rainfall_anomaly_is_masked_difference Wit.chirpsCfg [] 0).2 (by decide)

/-- C1: in the generic GSW script, every feature of `transition_fc` carries
the group's class value as `transition_class_number`, the values found by
looking up the stringified class value in the dictionaries built from the
dataset's `transition_class_values` / `transition_class_names` /
`transition_class_palette` properties, and the group's `sum` as `area_m2`. -/
theorem generic_createFeature_fields
    (m : GswGen.GswMeta) (groups : List GswGen.GroupStats) (i : Nat)
    (h : i < groups.length) :
    ((GswGen.transition_fc m groups).getD i GswGen.blankFeature).transition_class_number
        = (groups.getD i GswGen.blankGroup).transition_class_value
      ∧ ((GswGen.transition_fc m groups).getD i GswGen.blankFeature).transition_class_name
        = GswGen.dictGet (GswGen.lookup_names m)
            (GswGen.numToString ((groups.getD i GswGen.blankGroup).transition_class_value))
      ∧ ((GswGen.transition_fc m groups).getD i GswGen.blankFeature).transition_class_palette
        = GswGen.dictGet (GswGen.lookup_palette m)
            (GswGen.numToString ((groups.getD i GswGen.blankGroup).transition_class_value))
      ∧ ((GswGen.transition_fc m groups).getD i GswGen.blankFeature).area_m2
        = (groups.getD i GswGen.blankGroup).sum := by
  have hlen : i < (GswGen.transition_fc m groups).length := by
    simpa [GswGen.transition_fc] using h
  rw [List.getD_eq_getElem _ _ hlen, List.getD_eq_getElem _ _ h]
  simp [GswGen.transition_fc, GswGen.createFeature]

/-- Witness for C1: the single group of `Wit.gswGroups` against the
three-class metadata `Wit.gswMeta`. -/
theorem generic_createFeature_fields_witness :
    ((GswGen.transition_fc Wit.gswMeta Wit.gswGroups).getD 0 GswGen.blankFeature).transition_class_number
        = ((Wit.gswGroups).getD 0 GswGen.blankGroup).transition_class_value
      ∧ ((GswGen.transition_fc Wit.gswMeta Wit.gswGroups).getD 0 GswGen.blankFeature).transition_class_name
        = GswGen.dictGet (GswGen.lookup_names Wit.gswMeta)
            (GswGen.numToString (((Wit.gswGroups).getD 0 GswGen.blankGroup).transition_class_value))
      ∧ ((GswGen.transition_fc Wit.gswMeta Wit.gswGroups).getD 0 GswGen.blankFeature).transition_class_palette
        = GswGen.dictGet (GswGen.lookup_palette Wit.gswMeta)
            (GswGen.numToString (((Wit.gswGroups).getD 0 GswGen.blankGroup).transition_class_value))
      ∧ ((GswGen.transition_fc Wit.gswMeta Wit.gswGroups).getD 0 GswGen.blankFeature).area_m2
        = ((Wit.gswGroups).getD 0 GswGen.blankGroup).sum :=
  generic_createFeature_fields Wit.gswMeta Wit.gswGroups 0 (by decide)

/-- C9: the robust `createFeature` is total over every group dictionary:
class values outside 0..10 produce name `Unknown` and palette `#999999`, an
absent `sum` entry defaults the area to 0, and class values inside 0..10
index the hard-coded class lists within bounds. -/
theorem robust_createFeature_total (d : GswRob.GroupDict) :
    (¬ (0 ≤ d.transition_class_value ∧ d.transition_class_value ≤ 10) →
        (GswRob.createFeature d).transition_class_name = "Unknown"
        ∧ (GswRob.createFeature d).transition_class_palette = "#999999")
    ∧ (d.sum = none → (GswRob.createFeature d).area_km2 = 0)
    ∧ (0 ≤ d.transition_class_value → d.transition_class_value ≤ 10 →
        ∃ hn : d.transition_class_value.toNat < GswRob.class_names.length,
        ∃ hc : d.transition_class_value.toNat < GswRob.class_colors.length,
          (GswRob.createFeature d).transition_class_name
              = GswRob.class_names.get ⟨d.transition_class_value.toNat, hn⟩
          ∧ (GswRob.createFeature d).transition_class_palette
              = GswRob.class_colors.get ⟨d.transition_class_value.toNat, hc⟩) := by
  refine ⟨?_, ?_, ?_⟩
  · intro hinv
    simp [GswRob.createFeature, hinv]
  · intro hnone
    simp [GswRob.createFeature, hnone]
  · intro hlo hhi
    have hn : d.transition_class_value.toNat < GswRob.class_names.length := by
      have : d.transition_class_value.toNat ≤ 10 := by omega
      simpa [GswRob.class_names] using Nat.lt_succ_of_le this
    have hc : d.transition_class_value.toNat < GswRob.class_colors.length := by
      have : d.transition_class_value.toNat ≤ 10 := by omega
      simpa [GswRob.class_colors] using Nat.lt_succ_of_le this
    refine ⟨hn, hc, ?_, ?_⟩
    · simp [GswRob.createFeature, hlo, hhi, List.getD, List.getElem?_eq_getElem hn]
    · simp [GswRob.createFeature, hlo, hhi, List.getD, List.getElem?_eq_getElem hc]

/-- Witness for C9: class value 11 with missing `sum` falls back to
`Unknown` / `#999999` / area 0; class value 4 reads entry 4 of the
hard-coded lists. -/
theorem robust_createFeature_total_witness :
    ((GswRob.createFeature { transition_class_value := 11, sum := none }).transition_class_name
        = "Unknown"
      ∧ (GswRob.createFeature { transition_class_value := 11, sum := none }).transition_class_palette
        = "#999999")
    ∧ (GswRob.createFeature { transition_class_value := 11, sum := none }).area_km2 = 0
    ∧ (GswRob.createFeature { transition_class_value := 4, sum := some 2000000 }).transition_class_name
        = "Seasonal Water" := by
  refine ⟨(robust_createFeature_total _).1 (by decide),
    (robust_createFeature_total _).2.1 rfl, ?_⟩
  obtain ⟨hn, hc, h1, h2⟩ :=
    (robust_createFeature_total { transition_class_value := 4, sum := some 2000000 }).2.2
      (by decide) (by decide)
  simpa using h1

/-- C4: the two GSW variants agree on the transition-class aggregation:
given the same grouped reduction output (whose class values are distinct,
as grouping guarantees), every class number present in both summaries has
`area_km2` in the robust variant equal to the generic variant's `area_m2`
divided by 1e6; and the robust summary consists exactly of the features
built (with the hard-coded name/color tables) from the groups, restricted
to strictly positive area, sorted by area descending. -/
theorem robust_refines_generic
    (m : GswGen.GswMeta) (groups : List GswGen.GroupStats)
    (f : GswRob.RobustFeature) (c : Int)
    (hnd : (groups.map (fun g => g.transition_class_value)).Nodup)
    (hgen : c ∈ (GswGen.transition_fc m groups).map (fun x => x.transition_class_number))
    (hrob : c ∈ (GswRob.transition_fc groups).map (fun x => x.transition_class_number)) :
    ((GswRob.transition_fc groups).find? (fun x => x.transition_class_number == c)).map
        (fun x => x.area_km2)
      = (((GswGen.transition_fc m groups).find? (fun x => x.transition_class_number == c)).map
          (fun x => x.area_m2)).map (fun a => a / 1000000)
    ∧ (f ∈ GswRob.transition_fc groups ↔
        (f ∈ groups.map (fun g =>
            GswRob.createFeature { transition_class_value := g.transition_class_value, sum := some g.sum })
          ∧ 0 < f.area_km2))
    ∧ (GswRob.transition_fc groups).Pairwise (fun a b => b.area_km2 ≤ a.area_km2) := by
  have hinj : ∀ g1 ∈ groups, ∀ g2 ∈ groups,
      g1.transition_class_value = g2.transition_class_value → g1 = g2 :=
    fun g1 h1 g2 h2 he => List.inj_on_of_nodup_map hnd h1 h2 he
  rcases List.mem_map.mp hgen with ⟨fg, hfgMem, hfgNum⟩
  rcases List.mem_map.mp (by simpa [GswGen.transition_fc] using hfgMem) with ⟨g0, hg0, rfl⟩
  have hval : g0.transition_class_value = c := hfgNum
  have hgenfind :
      (GswGen.transition_fc m groups).find? (fun x => x.transition_class_number == c)
        = some (GswGen.createFeature m g0) := by
    apply find?_eq_some_of_unique
    · exact List.mem_map.mpr ⟨g0, hg0, rfl⟩
    · simpa [GswGen.createFeature] using hval
    · intro b hb hpb
      rcases List.mem_map.mp (by simpa [GswGen.transition_fc] using hb) with ⟨g1, hg1, rfl⟩
      have h1c : g1.transition_class_value = c := by
        simpa [GswGen.createFeature] using hpb
      have : g1 = g0 := hinj g1 hg1 g0 hg0 (by rw [h1c, hval])
      rw [this]
  rcases List.mem_map.mp hrob with ⟨fr, hfrMem, hfrNum⟩
  have hfrMem2 := GswRob.mem_sortByAreaDesc.mp (by simpa [GswRob.transition_fc] using hfrMem)
  rcases List.mem_filter.mp hfrMem2 with ⟨hfrMap, hfrPos⟩
  rcases List.mem_map.mp hfrMap with ⟨g1, hg1, hfr⟩
  have h1c : g1.transition_class_value = c := by
    have := hfrNum
    rw [← hfr] at this
    simpa [GswRob.createFeature] using this
  have hg10 : g1 = g0 := hinj g1 hg1 g0 hg0 (by rw [h1c, hval])
  have hfr0 : fr = GswRob.createFeature
      { transition_class_value := g0.transition_class_value, sum := some g0.sum } := by
    rw [← hfr, hg10]
  have hrobfind :
      (GswRob.transition_fc groups).find? (fun x => x.transition_class_number == c)
        = some (GswRob.createFeature
            { transition_class_value := g0.transition_class_value, sum := some g0.sum }) := by
    apply find?_eq_some_of_unique
    · rw [← hfr0]; exact hfrMem
    · simpa [GswRob.createFeature] using hval
    · intro b hb hpb
      have hb2 := GswRob.mem_sortByAreaDesc.mp (by simpa [GswRob.transition_fc] using hb)
      rcases List.mem_filter.mp hb2 with ⟨hbMap, hbPos⟩
      rcases List.mem_map.mp hbMap with ⟨g2, hg2, hbg⟩
      have h2c : g2.transition_class_value = c := by
        rw [← hbg] at hpb
        simpa [GswRob.createFeature] using hpb
      have : g2 = g0 := hinj g2 hg2 g0 hg0 (by rw [h2c, hval])
      rw [← hbg, this]
  refine ⟨?_, ?_, ?_⟩
  · rw [hgenfind, hrobfind]
    simp [GswRob.createFeature, GswGen.createFeature]
  · rw [GswRob.transition_fc, GswRob.mem_sortByAreaDesc]
    simp [List.mem_filter]
  · rw [GswRob.transition_fc]
    exact GswRob.pairwise_sortByAreaDesc _

/-- Witness for C4: two groups with class values 1 and 4, areas 3 km² and
1 km²; class 1 is present in both summaries and its robust area is the
generic area divided by 1e6. -/
theorem robust_refines_generic_witness :
    ((GswRob.transition_fc Wit.twoGroups).find? (fun x => x.transition_class_number == 1)).map
        (fun x => x.area_km2)
      = (((GswGen.transition_fc Wit.gswMeta Wit.twoGroups).find?
            (fun x => x.transition_class_number == 1)).map
          (fun x => x.area_m2)).map (fun a => a / 1000000)
    ∧ (GswRob.createFeature { transition_class_value := 1, sum := some 3000000 }
          ∈ GswRob.transition_fc Wit.twoGroups ↔
        (GswRob.createFeature { transition_class_value := 1, sum := some 3000000 }
            ∈ Wit.twoGroups.map (fun g =>
              GswRob.createFeature { transition_class_value := g.transition_class_value, sum := some g.sum })
          ∧ 0 < (GswRob.createFeature
              { transition_class_value := 1, sum := some 3000000 }).area_km2))
    ∧ (GswRob.transition_fc Wit.twoGroups).Pairwise (fun a b => b.area_km2 ≤ a.area_km2) :=
  robust_refines_generic Wit.gswMeta Wit.twoGroups
    (GswRob.createFeature { transition_class_value := 1, sum := some 3000000 }) 1
    (by decide) (by decide)
    (by
      apply List.mem_map.mpr
      refine ⟨GswRob.createFeature { transition_class_value := 1, sum := some 3000000 }, ?_, rfl⟩
      rw [GswRob.transition_fc]
      apply GswRob.mem_sortByAreaDesc.mpr
      apply List.mem_filter.mpr
      refine ⟨?_, ?_⟩
      · exact List.mem_map.mpr ⟨{ transition_class_value := 1, sum := 3000000 },
          by simp [Wit.twoGroups], rfl⟩
      · norm_num [GswRob.createFeature])

/-- C5 counterexample: it is not the case that every script loads exactly
one remote dataset beyond the boundary source: the Landsat NDVI script
loads two (the Landsat 7 collection and the ESA WorldCover land cover), as
does the WDPA script (the WDPA polygon and point collections). -/
theorem one_dataset_per_script_counterexample :
    ¬ (Scripts.repoScripts.all (fun s => Scripts.datasetLoadCount s == 1) = true)
    ∧ Scripts.ndviScript ∈ Scripts.repoScripts
    ∧ Scripts.datasetLoadCount Scripts.ndviScript = 2 := by
  refine ⟨by decide, by decide, by decide⟩

/-- C5 amended: every script loads at least one remote dataset beyond the
boundary source, and all dataset loads happen before the summary layers
are derived; every script except the Landsat NDVI script (which also loads
the ESA WorldCover land cover) and the WDPA script (which loads both the
WDPA polygon and point collections) loads exactly one. -/
theorem one_dataset_per_script_amended :
    Scripts.repoScripts.all
        (fun s => decide (1 ≤ Scripts.datasetLoadCount s) && Scripts.loadsPrecedeDerivation s) = true
    ∧ Scripts.datasetLoadCount Scripts.gswGenericScript = 1
    ∧ Scripts.datasetLoadCount Scripts.chirpsScript = 1
    ∧ Scripts.datasetLoadCount Scripts.gfcScript = 1
    ∧ Scripts.datasetLoadCount Scripts.demScript = 1
    ∧ Scripts.datasetLoadCount Scripts.gswRobustScript = 1
    ∧ Scripts.datasetLoadCount Scripts.ndviScript = 2
    ∧ Scripts.datasetLoadCount Scripts.wdpaScript = 2 := by
  refine ⟨by decide, by decide, by decide, by decide, by decide, by decide, by decide, by decide⟩

/-- C7: every script queues at least one export job, and every export in
every script targets Google Drive. -/
theorem all_exports_target_drive :
    Scripts.repoScripts.all
        (fun s => decide (1 ≤ Scripts.exportCount s) && Scripts.exportsOnlyToDrive s) = true := by
  decide

set_option maxRecDepth 20000 in
/-- C6 counterexample: the baseline/anomaly compositions are not all built
from the aggregation primitives alone: `computeAnomaly` in the Landsat NDVI
script wraps its subtraction in `ee.Algorithms.If` conditionals, so the
mapped anomaly collection contains conditional nodes. -/
theorem composition_primitives_counterexample :
    ¬ (Composition.allCompositions.all Composition.primitivesOnly = true)
    ∧ Composition.monthlyAnomaliesCollExpr ∈ Composition.allCompositions
    ∧ Composition.primitivesOnly (Composition.computeAnomalyExpr 2015 3) = false := by
  refine ⟨by decide, by decide, by decide⟩

set_option maxRecDepth 20000 in
/-- C6 amended: every baseline/anomaly composition in the CHIRPS and
Landsat NDVI scripts is built from filters and the aggregation primitives
(`sum`, `mean`, `subtract`, `updateMask`) with at most `ee.Algorithms.If`
guards on band counts, and every composition except the `computeAnomaly`
mapping uses the primitives alone, with no control flow at all. -/
theorem composition_primitives_amended :
    Composition.allCompositions.all Composition.primitivesOrGuard = true
    ∧ (Composition.chirpsCompositions
        ++ [ Composition.monthlyNdviCollExpr, Composition.meanMonthlyCollExpr
           , Composition.ndviBaselineExpr, Composition.studyMeanNdviExpr
           , Composition.meanAnomalyExpr ]).all Composition.primitivesOnly = true := by
  refine ⟨by decide, by decide⟩

/-- C8: in the CHIRPS script, with `use_custom_aoi` false and an admin
level other than 0, 1 or 2, AOI construction throws
`admin_level must be 0, 1, or 2`, so the CHIRPS dataset is never loaded and
no export job is queued; for levels 0, 1, 2 the script runs without that
error. -/
theorem admin_level_validation (cfg : ChirpsRun.Settings) :
    (cfg.use_custom_aoi = false → cfg.admin_level ≠ 0 → cfg.admin_level ≠ 1 →
      cfg.admin_level ≠ 2 →
      ChirpsRun.runScript cfg = Except.error "admin_level must be 0, 1, or 2")
    ∧ (cfg.use_custom_aoi = false →
        (cfg.admin_level = 0 ∨ cfg.admin_level = 1 ∨ cfg.admin_level = 2) →
        (ChirpsRun.runScript cfg).isOk = true) := by
  constructor
  · intro hc h0 h1 h2
    simp [ChirpsRun.runScript, ChirpsRun.buildAOI, hc, h0, h1, h2]
  · intro hc hlvl
    rcases hlvl with h | h | h <;>
      simp [ChirpsRun.runScript, ChirpsRun.buildAOI, hc, h, Except.isOk, Except.toBool]

/-- Witness for C8: admin level 5 aborts with the error; admin level 2
succeeds. -/
theorem admin_level_validation_witness :
    ChirpsRun.runScript { use_custom_aoi := false, admin_level := 5 }
        = Except.error "admin_level must be 0, 1, or 2"
    ∧ (ChirpsRun.runScript { use_custom_aoi := false, admin_level := 2 }).isOk = true :=
  ⟨(admin_level_validation { use_custom_aoi := false, admin_level := 5 }).1
      rfl (by decide) (by decide) (by decide),
    (admin_level_validation { use_custom_aoi := false, admin_level := 2 }).2
      rfl (Or.inr (Or.inr rfl))⟩

/-- C10: `slugifyName` only ever produces letters, digits, underscores and
hyphens, so its output is safe for use as an export task name. -/
theorem slugifyName_output_is_safe (s : String) :
    (Slug.slugifyName s).data.all Slug.isSlugSafe = true := by
  rw [List.all_eq_true]
  intro c hc
  have hmem : c ∈ Slug.keepWordChars (Slug.collapseWs (Slug.trimWs s.data)) := by
    simpa [Slug.slugifyName] using hc
  have h2 : c ∈ Slug.collapseWs (Slug.trimWs s.data)
      ∧ (Slug.isWordChar c = true ∨ c = '-') := by
    simpa [Slug.keepWordChars, List.mem_filter] using hmem
  rcases h2.2 with h | h <;> simp [Slug.isSlugSafe, h]
